import Mathlib

/-!
Verification development for the incremental query-and-caching engine of the
compiler fork (the `rustc_query_system` / `rustc_middle` query plumbing).

The embedding is a shallow one: keys, values, dep-node identities and
dep-node indices are modelled as `Nat`; the external collaborators
(dependency graph, disk cache, session options, per-query-kind vtable) are
modelled as an environment record; the observable effects of a run
(provider invocations and the dependency-tracking mode they ran under,
fingerprint re-verifications, emitted and delayed diagnostics, job
completion signals, feed-task creations) are accumulated in an explicit
`Trace`, and aborting control flow (`panic!`, `FatalError.raise`,
`abort_if_errors`, failed `unwrap`) is an `Except`-style stop.
-/

namespace QuerySystem

/-- `Fingerprint(u64, u64)` from `rustc_data_structures::fingerprint`; `w0`
and `w1` are the two 64-bit words, and `as_value().1` is `w1`. -/
structure Fingerprint where
  w0 : Nat
  w1 : Nat
deriving DecidableEq, Repr

/-- `Fingerprint::ZERO`. -/
def Fingerprint.ZERO : Fingerprint := ⟨0, 0⟩

/-- The dependency-tracking wrapper a provider invocation ran under:
`with_task`, `with_anon_task`, `with_ignore`, or the plain call made when
incremental compilation is disabled. -/
inductive ComputeMode where
  | task
  | anonTask
  | ignore
  | plain
deriving DecidableEq, Repr

/-- One active query on the current-query stack: the id of the job
computing it together with an opaque identity for its `QueryStackFrame`
(this is the data of `QueryInfo` from `query/job.rs` that the claims
need). -/
structure QueryInfo where
  jobId : Nat
  frame : Nat
deriving DecidableEq, Repr

/-- A diagnostic recorded during a run.  Emitted errors and delayed bugs
are distinguished by `Diag.isError` below. -/
inductive Diag where
  | cycleDiag (cycle : List QueryInfo)
  | cycleDelayed (cycle : List QueryInfo)
  | reentrant
  | incrementCompilation (depNode : Nat)
  | feedMismatch (key old new : Nat)
deriving DecidableEq, Repr

/-- Whether a diagnostic is an eagerly emitted error (counts towards
`abort_if_errors`), as opposed to a delayed bug. -/
def Diag.isError : Diag → Bool
  | .cycleDiag _ => true
  | .cycleDelayed _ => false
  | .reentrant => true
  | .incrementCompilation _ => true
  | .feedMismatch _ _ _ => false

/-- An aborting exit of a run: the `panic!` in
`incremental_verify_ich_failed` (carrying the dep-node and the offending
result), `FatalError.raise()` / `abort_if_errors()`, a failed `assert!`
or `unwrap()` / `unreachable!()`, and the `bug!` raised when feeding a
`no_hash` query twice. -/
inductive QStop where
  | panicked (depNode result : Nat)
  | fatalAborted
  | assertionFailed
  | unwrapFailed
  | bugFeedTwice (key old new : Nat)
deriving DecidableEq, Repr

/-- The observable effect trace of a run. `insidePanic` is the
`INSIDE_VERIFY_PANIC` thread-local of `incremental_verify_ich_failed`;
`signals` records `QueryJob::signal_complete` calls by job id;
`feedTasks` records `DepGraph::with_feed_task` calls. -/
structure Trace where
  computeCalls : List ComputeMode := []
  verifies : List Nat := []
  diags : List Diag := []
  signals : List Nat := []
  feedTasks : List (Nat × Nat) := []
  insidePanic : Bool := false
deriving DecidableEq, Repr

/-- The empty initial trace. -/
def Trace.empty : Trace := {}

/-- Record one provider invocation under the given tracking mode. -/
def Trace.recCompute (t : Trace) (m : ComputeMode) : Trace :=
  { t with computeCalls := t.computeCalls ++ [m] }

/-- Record one `incremental_verify_ich` run checking `result`. -/
def Trace.recVerify (t : Trace) (result : Nat) : Trace :=
  { t with verifies := t.verifies ++ [result] }

/-- Record one diagnostic. -/
def Trace.emit (t : Trace) (d : Diag) : Trace :=
  { t with diags := t.diags ++ [d] }

/-- Record one `signal_complete` on the job with the given id. -/
def Trace.recSignal (t : Trace) (jobId : Nat) : Trace :=
  { t with signals := t.signals ++ [jobId] }

/-- Whether any eager error has been emitted so far (the state consulted
by `abort_if_errors`). -/
def Trace.hasErrors (t : Trace) : Bool := t.diags.any Diag.isError

/-- The result of running a piece of the executor: either a value or an
aborting stop, together with the trace accumulated up to that point (the
trace survives panics, so that non-invocation facts can be stated about
aborting runs too). -/
abbrev QResult (α : Type) := Except QStop α × Trace

/-- `HandleCycleError` from `rustc_query_system`: the per-query-kind
cycle-error policy. -/
inductive HandleCycleError where
  | Error
  | Fatal
  | DelayBug
deriving DecidableEq, Repr

/-- The per-query-kind configuration (`QueryVTable`): the flags, the
optional result-hash function, the optional disk-load function
(`prev_dep_node_index → Option value`), the cycle policy and the provider
(`compute`). -/
structure QueryVTable where
  anon : Bool
  evalAlways : Bool
  depthLimit : Bool
  feedable : Bool
  hashResult : Option (Nat → Fingerprint)
  tryLoadFromDisk : Option (Nat → Option Nat)
  handleCycleError : HandleCycleError
  compute : Nat → Nat

/-- The dependency-graph collaborator, specialised to the one dep-node a
single executor call is concerned with: whether incremental compilation
is fully enabled, the answer `try_mark_green` would give for that node
(`(prev_dep_node_index, dep_node_index)` on success), the previous
session's fingerprint of that node, whether the node is green, and the
indices handed out by `next_virtual_depnode_index`, `with_anon_task` and
`with_task`. -/
structure DepGraphEnv where
  fullyEnabled : Bool
  tryMarkGreen : Option (Nat × Nat)
  prevFingerprintOf : Option Fingerprint
  isGreen : Bool
  nextVirtualIndex : Nat
  anonTaskIndex : Nat
  taskIndex : Nat

/-- The session options consulted by the executor. -/
structure SessOpts where
  incrementalVerifyIch : Bool
  queryDepGraph : Bool

/-- The whole environment of one executor call: vtable, dep graph,
session options, the dep-node identity of the key under consideration
(`to_dep_node`), the `Value::from_cycle_error` placeholder constructor,
and the index `with_feed_task` would produce. -/
structure QueryEnv where
  query : QueryVTable
  depGraph : DepGraphEnv
  sess : SessOpts
  depNode : Nat
  fromCycleError : List QueryInfo → Nat
  feedTaskIndex : Nat

/-- `incremental_verify_ich_failed` (plumbing.rs:657-688).  The
`INSIDE_VERIFY_PANIC` thread-local is read and set to `true`; a
re-entrant call emits the terse `Reentrant` error and returns (restoring
the flag), a first call emits the `IncrementCompilation` error naming the
dep-node and then panics with the dep-node and the result. -/
def incrementalVerifyIchFailed (depNode result : Nat) (t : Trace) : QResult Unit :=
  let oldInPanic := t.insidePanic
  let t1 := { t with insidePanic := true }
  if oldInPanic then
    let t2 := t1.emit .reentrant
    (.ok (), { t2 with insidePanic := oldInPanic })
  else
    let t2 := t1.emit (.incrementCompilation depNode)
    (.error (.panicked depNode result), t2)

/-- The hash `incremental_verify_ich` computes for a result:
`hash_result.map_or(Fingerprint::ZERO, ...)`. -/
def newHashOf (env : QueryEnv) (result : Nat) : Fingerprint :=
  match env.query.hashResult with
  | none => Fingerprint.ZERO
  | some f => f result

/-- `incremental_verify_ich` (plumbing.rs:583-614): asserts the node is
green, recomputes the result hash, compares it against the previous
session's fingerprint and calls `incremental_verify_ich_failed` on a
mismatch; returns the new hash. -/
def incrementalVerifyIch (env : QueryEnv) (result : Nat) (t : Trace) : QResult Fingerprint :=
  let t := t.recVerify result
  if env.depGraph.isGreen = false then
    (.error .assertionFailed, t)
  else
    let newHash := newHashOf env result
    let oldHash := env.depGraph.prevFingerprintOf
    if some newHash = oldHash then
      (.ok newHash, t)
    else
      match incrementalVerifyIchFailed env.depNode result t with
      | (.error e, t') => (.error e, t')
      | (.ok _, t') => (.ok newHash, t')

/-- The fallback tail of `try_load_from_disk_and_cache_in_memory`
(plumbing.rs:560-580): no result could be loaded from disk, so the
provider is re-run under `dep_graph.with_ignore` (the graph for this node
is already in place) and the recomputed result's hash is verified against
the previous fingerprint. -/
def loadFromDiskFallback (env : QueryEnv) (key depNodeIndex : Nat) (t : Trace) :
    QResult (Option (Nat × Nat)) :=
  match incrementalVerifyIch env (env.query.compute key) (t.recCompute .ignore) with
  | (.error e, t') => (.error e, t')
  | (.ok _, t') => (.ok (some (env.query.compute key, depNodeIndex)), t')

/-- `try_load_from_disk_and_cache_in_memory` (plumbing.rs:490-581):
`try_mark_green` or bail with `none`; if the query has a disk-load
function and it yields a value, optionally re-verify the fingerprint (for
the deterministic subset `prev_fingerprint.as_value().1 % 32 == 0`, or
always under `-Zincremental-verify-ich`) and return the loaded value with
the green index; otherwise recompute via `loadFromDiskFallback`. -/
def tryLoadFromDiskAndCacheInMemory (env : QueryEnv) (key : Nat) (t : Trace) :
    QResult (Option (Nat × Nat)) :=
  match env.depGraph.tryMarkGreen with
  | none => (.ok none, t)
  | some (prevDepNodeIndex, depNodeIndex) =>
    match env.query.tryLoadFromDisk with
    | some tryLoad =>
      match tryLoad prevDepNodeIndex with
      | some result =>
        let prevFingerprint := (env.depGraph.prevFingerprintOf).getD Fingerprint.ZERO
        let tryVerify := prevFingerprint.w1 % 32 == 0
        if tryVerify || env.sess.incrementalVerifyIch then
          match incrementalVerifyIch env result t with
          | (.error e, t') => (.error e, t')
          | (.ok _, t') => (.ok (some (result, depNodeIndex)), t')
        else
          (.ok (some (result, depNodeIndex)), t)
      | none => loadFromDiskFallback env key depNodeIndex t
    | none => loadFromDiskFallback env key depNodeIndex t

/-- `execute_job` (plumbing.rs:417-488): fast path when incremental
compilation is off; otherwise, for queries that are neither anonymous nor
`eval_always`, first try the incremental reuse path; failing that run the
provider under `with_anon_task` or `with_task`. -/
def executeJob (env : QueryEnv) (key : Nat) (t : Trace) : QResult (Nat × Nat) :=
  if env.depGraph.fullyEnabled = false then
    (.ok (env.query.compute key, env.depGraph.nextVirtualIndex), t.recCompute .plain)
  else
    let step :=
      if !env.query.anon && !env.query.evalAlways then
        tryLoadFromDiskAndCacheInMemory env key t
      else
        (.ok none, t)
    match step with
    | (.error e, t') => (.error e, t')
    | (.ok (some ret), t') => (.ok ret, t')
    | (.ok none, t') =>
      if env.query.anon then
        (.ok (env.query.compute key, env.depGraph.anonTaskIndex), t'.recCompute .anonTask)
      else
        (.ok (env.query.compute key, env.depGraph.taskIndex), t'.recCompute .task)

/-- A query job (`QueryJob` from `query/job.rs`): its id, the span of the
request that started it and the id of the parent query job, if any. -/
structure QueryJob where
  id : Nat
  span : Nat
  parent : Option Nat
deriving DecidableEq, Repr

/-- `QueryResult` (plumbing.rs:42-49): the state of an in-flight query —
started (with its job), or poisoned after a panic. -/
inductive QueryResult where
  | Started (job : QueryJob)
  | Poisoned
deriving DecidableEq, Repr

/-- The `active` map of a `QueryState`, keyed by the query key (modelled
as an association list with hash-map semantics: `insert` replaces). -/
abbrev QueryState := List (Nat × QueryResult)

/-- Map lookup on the active-query table. -/
def QueryState.lookup : QueryState → Nat → Option QueryResult
  | [], _ => none
  | (k, r) :: rest, key => if k = key then some r else QueryState.lookup rest key

/-- Map removal on the active-query table. -/
def QueryState.remove : QueryState → Nat → QueryState
  | [], _ => []
  | (k, r) :: rest, key =>
    if k = key then QueryState.remove rest key else (k, r) :: QueryState.remove rest key

/-- Map insertion (replacing any previous binding) on the active-query
table. -/
def QueryState.insert (s : QueryState) (key : Nat) (r : QueryResult) : QueryState :=
  (key, r) :: s.remove key

/-- `CycleError` (plumbing.rs:310-315): the optional `(span, frame)` that
used the cycle, and the list of queries forming the cycle. -/
structure CycleError where
  usage : Option (Nat × Nat)
  cycle : List QueryInfo
deriving DecidableEq, Repr

/-- Modelled from the spec: `QueryJobId::find_cycle_in_stack` lives in
`rustc_query_system/src/query/job.rs`, which is not among the excerpted
sources.  The spec (§4.2) says that in single-threaded mode a second
request for an already-started key must "synthesize a cycle error
immediately by walking the stack of currently active queries to find the
cycle's extent", and (§8) that "the error payload must include the full
cycle (set of keys involved)".  We model the active-query stack as the
list of `QueryInfo`, outermost first; the cycle is the portion of the
stack from the frame executing the awaited job to the innermost frame.
The spec does not determine the `usage` field, which we leave empty. -/
def findCycleInStack (stack : List QueryInfo) (targetJobId : Nat) : CycleError :=
  { usage := none, cycle := stack.dropWhile (fun q => q.jobId != targetJobId) }

/-- The result of `JobOwner::try_start` in single-threaded mode: become
the owner of a freshly started job, receive a synthesized cycle error, or
hit a poisoned entry and raise `FatalError`. -/
inductive TryStartResult where
  | notYetStarted (ownerId : Nat)
  | cycle (err : CycleError)
  | fatalRaised
deriving DecidableEq, Repr

/-- `JobOwner::try_start` (plumbing.rs:181-248), single-threaded
(`not(parallel_compiler)`) configuration: on a vacant entry insert a
`Started` job and become the owner; on a `Started` entry synthesize a
cycle error by `find_cycle_in_stack` (no blocking, no recomputation); on
a `Poisoned` entry raise a fatal error. -/
def tryStart (stack : List QueryInfo) (nextJobId : Nat) (currentJob : Option Nat)
    (state : QueryState) (key span : Nat) : TryStartResult × QueryState :=
  match state.lookup key with
  | none =>
    (.notYetStarted nextJobId, state.insert key (.Started ⟨nextJobId, span, currentJob⟩))
  | some (.Started job) => (.cycle (findCycleInStack stack job.id), state)
  | some .Poisoned => (.fatalRaised, state)

/-- `impl Drop for JobOwner` (plumbing.rs:283-308): remove the owned
`Started` entry, re-insert the key as `Poisoned`, and signal the job's
waiters.  The returned job id is the one whose `signal_complete` ran
(`none` models the `unwrap`/`panic!` on a missing or already-poisoned
entry). -/
def jobOwnerDrop (state : QueryState) (key : Nat) : Option QueryJob × QueryState :=
  match state.lookup key with
  | some (.Started job) => (some job, (state.remove key).insert key .Poisoned)
  | _ => (none, state)

/-- The hash-map-backed query cache (`DefaultCache`), keyed by the query
key, holding `(value, dep_node_index)` pairs; association list with
hash-map semantics. -/
abbrev DefaultCache := List (Nat × (Nat × Nat))

/-- Raw map lookup on the cache. -/
def DefaultCache.lookupEntry : DefaultCache → Nat → Option (Nat × Nat)
  | [], _ => none
  | (k, v) :: rest, key => if k = key then some v else DefaultCache.lookupEntry rest key

/-- Raw map removal on the cache. -/
def DefaultCache.removeKey : DefaultCache → Nat → DefaultCache
  | [], _ => []
  | (k, v) :: rest, key =>
    if k = key then DefaultCache.removeKey rest key
    else (k, v) :: DefaultCache.removeKey rest key

/-- `DefaultCache::lookup` (caches.rs:94-112): on a hit, call the
`on_hit` callback with the stored value and its dep-node index; on a
miss, return `Err(())`. -/
def DefaultCache.lookup {R : Type} (cache : DefaultCache) (key : Nat)
    (onHit : Nat → Nat → R) : Except Unit R :=
  match cache.lookupEntry key with
  | some (v, i) => .ok (onHit v i)
  | none => .error ()

/-- `DefaultCache::complete` (caches.rs:114-124): insert
`(value, index)` for the key, overwriting any existing entry, and return
the value. -/
def DefaultCache.complete (cache : DefaultCache) (key value index : Nat) :
    Nat × DefaultCache :=
  (value, (key, (value, index)) :: cache.removeKey key)

/-- `DefaultCache`'s `QueryStorage::store_nocache` (caches.rs:80-84):
return the value without touching the cache. -/
def DefaultCache.store_nocache (value : Nat) : Nat := value

/-- `handle_cycle_error` (plumbing.rs:140-166): under `Error`, emit the
diagnostic and build the `Value::from_cycle_error` placeholder; under
`Fatal`, emit and `abort_if_errors` (which aborts, since an error was
just emitted; the following `unreachable!` is modelled as a failed
unwrap); under `DelayBug`, delay the diagnostic as a bug and build the
placeholder. -/
def handleCycleError (env : QueryEnv) (cycleError : CycleError) (t : Trace) : QResult Nat :=
  match env.query.handleCycleError with
  | .Error =>
    let t := t.emit (.cycleDiag cycleError.cycle)
    (.ok (env.fromCycleError cycleError.cycle), t)
  | .Fatal =>
    let t := t.emit (.cycleDiag cycleError.cycle)
    if t.hasErrors then (.error .fatalAborted, t) else (.error .unwrapFailed, t)
  | .DelayBug =>
    let t := t.emit (.cycleDelayed cycleError.cycle)
    (.ok (env.fromCycleError cycleError.cycle), t)

/-- `mk_cycle` (plumbing.rs:122-138): report the cycle, dispatch on the
per-query-kind policy, and pass the placeholder through
`store_nocache` — the cache itself is never touched. -/
def mkCycle (env : QueryEnv) (cycleError : CycleError) (t : Trace) : QResult Nat :=
  match handleCycleError env cycleError t with
  | (.error e, t') => (.error e, t')
  | (.ok v, t') => (.ok (DefaultCache.store_nocache v), t')

/-- `try_execute_query` (plumbing.rs:361-415) over a `DefaultCache`,
single-threaded configuration: `try_start`; as owner run `execute_job`,
then `JobOwner::complete` (remove the state entry, complete the cache,
signal waiters) and return the stored value with `Some(dep_node_index)`
— on an aborting `execute_job` the owner's destructor poisons the entry;
on a cycle, `mk_cycle` and return the placeholder with `None`; on a
poisoned entry the fatal error propagates.  Returns the run result, the
trace, and the final state table and cache. -/
def tryExecuteQuery (env : QueryEnv) (stack : List QueryInfo) (nextJobId : Nat)
    (currentJob : Option Nat) (state : QueryState) (cache : DefaultCache)
    (span key : Nat) (t : Trace) :
    Except QStop (Nat × Option Nat) × Trace × QueryState × DefaultCache :=
  match tryStart stack nextJobId currentJob state key span with
  | (.notYetStarted _, state') =>
    match executeJob env key t with
    | (.error e, t') =>
      let (sig, state'') := jobOwnerDrop state' key
      let t'' := match sig with
        | some job => t'.recSignal job.id
        | none => t'
      (.error e, t'', state'', cache)
    | (.ok (result, depNodeIndex), t') =>
      match state'.lookup key with
      | some (.Started job) =>
        let (stored, cache') := DefaultCache.complete cache key result depNodeIndex
        (.ok (stored, some depNodeIndex), (t'.recSignal job.id), state'.remove key, cache')
      | _ => (.error .unwrapFailed, t', state', cache)
  | (.cycle err, state') =>
    match mkCycle env err t with
    | (.error e, t') => (.error e, t', state', cache)
    | (.ok v, t') => (.ok (v, none), t', state', cache)
  | (.fatalRaised, state') => (.error .fatalAborted, t, state', cache)

/-- `define_feedable`'s generated feed method
(rustc_middle/query/plumbing.rs:476-532) over a `DefaultCache`: if the
key already has a cached value, a hashable query compares the two hashes
and delays a bug on mismatch (keeping the old value), while a `no_hash`
query raises `bug!` unconditionally; if the key has no cached value, a
dependency node is created via `with_feed_task` and the cache is
completed with the fed value. -/
def feedQuery (env : QueryEnv) (cache : DefaultCache) (key value : Nat) (t : Trace) :
    Except QStop Unit × Trace × DefaultCache :=
  match cache.lookupEntry key with
  | some (old, _) =>
    match env.query.hashResult with
    | some hasher =>
      if hasher old ≠ hasher value then
        (.ok (), t.emit (.feedMismatch key old value), cache)
      else
        (.ok (), t, cache)
    | none => (.error (.bugFeedTwice key old value), t, cache)
  | none =>
    let depNodeIndex := env.feedTaskIndex
    let t := { t with feedTasks := t.feedTasks ++ [(key, value)] }
    let (_, cache') := DefaultCache.complete cache key value depNodeIndex
    (.ok (), t, cache')

/-- A sample environment used to instantiate theorems at concrete inputs:
a hashable, disk-cached, non-anonymous, non-`eval_always` query whose
provider is `(· + 1)`, whose disk load yields `5`, and whose previous
fingerprint matches the hash of the loaded value. -/
def sampleEnv : QueryEnv where
  query :=
    { anon := false
      evalAlways := false
      depthLimit := false
      feedable := false
      hashResult := some (fun v => ⟨v, 0⟩)
      tryLoadFromDisk := some (fun _ => some 5)
      handleCycleError := .Error
      compute := fun k => k + 1 }
  depGraph :=
    { fullyEnabled := true
      tryMarkGreen := some (3, 4)
      prevFingerprintOf := some ⟨5, 0⟩
      isGreen := true
      nextVirtualIndex := 10
      anonTaskIndex := 11
      taskIndex := 12 }
  sess := { incrementalVerifyIch := false, queryDepGraph := false }
  depNode := 77
  fromCycleError := fun _ => 99
  feedTaskIndex := 42

/-- A variant of `sampleEnv` whose recorded previous fingerprint disagrees
with every hash the sample hash function can produce (its second word is
odd), used to drive the mismatch path. -/
def mismatchEnv : QueryEnv :=
  { sampleEnv with
    depGraph := { sampleEnv.depGraph with prevFingerprintOf := some ⟨0, 1⟩ } }

/-- A variant of `sampleEnv` for a `no_hash` query kind. -/
def noHashEnv : QueryEnv :=
  { sampleEnv with query := { sampleEnv.query with hashResult := none } }

/-- A variant of `sampleEnv` whose disk load yields nothing, driving the
recompute fallback; its recorded fingerprint matches the recomputed
result's hash, so the final verification passes. -/
def diskMissEnv : QueryEnv :=
  { sampleEnv with
    query :=
      { sampleEnv.query with
        tryLoadFromDisk := some (fun _ => none)
        hashResult := some (fun _ => ⟨0, 1⟩) }
    depGraph := { sampleEnv.depGraph with prevFingerprintOf := some ⟨0, 1⟩ } }

section Lemmas

/-- `incremental_verify_ich` never invokes a provider: its trace keeps the
`computeCalls` of the input trace. -/
theorem incrementalVerifyIch_computeCalls (env : QueryEnv) (r : Nat) (t : Trace) :
    ((incrementalVerifyIch env r t).2).computeCalls = t.computeCalls := by
  unfold incrementalVerifyIch incrementalVerifyIchFailed
  by_cases h1 : env.depGraph.isGreen = false
  · simp [h1, Trace.recVerify]
  · by_cases h2 : some (newHashOf env r) = env.depGraph.prevFingerprintOf
    · simp [h1, h2, Trace.recVerify]
    · by_cases h3 : t.insidePanic = true <;>
        simp [h1, h2, h3, Trace.recVerify, Trace.emit]

/-- `incremental_verify_ich` records exactly one verification, of the
result it was given. -/
theorem incrementalVerifyIch_verifies (env : QueryEnv) (r : Nat) (t : Trace) :
    ((incrementalVerifyIch env r t).2).verifies = t.verifies ++ [r] := by
  unfold incrementalVerifyIch incrementalVerifyIchFailed
  by_cases h1 : env.depGraph.isGreen = false
  · simp [h1, Trace.recVerify]
  · by_cases h2 : some (newHashOf env r) = env.depGraph.prevFingerprintOf
    · simp [h1, h2, Trace.recVerify]
    · by_cases h3 : t.insidePanic = true <;>
        simp [h1, h2, h3, Trace.recVerify, Trace.emit]

/-- When entered with the re-entrancy flag clear, `incremental_verify_ich`
returns normally only along the hash-match path, which emits no
diagnostics. -/
theorem incrementalVerifyIch_ok_diags (env : QueryEnv) (r : Nat) (t : Trace)
    (hip : t.insidePanic = false) :
    ∀ fp, (incrementalVerifyIch env r t).1 = .ok fp →
      ((incrementalVerifyIch env r t).2).diags = t.diags := by
  unfold incrementalVerifyIch incrementalVerifyIchFailed
  by_cases h1 : env.depGraph.isGreen = false
  · simp [h1, Trace.recVerify]
  · by_cases h2 : some (newHashOf env r) = env.depGraph.prevFingerprintOf
    · simp [h1, h2, Trace.recVerify]
    · simp [h1, h2, hip, Trace.recVerify, Trace.emit]

/-- Looking up a key just inserted into the active-query table yields the
inserted entry. -/
theorem QueryState.lookup_insert (s : QueryState) (key : Nat) (r : QueryResult) :
    (s.insert key r).lookup key = some r := by
  simp [QueryState.insert, QueryState.lookup]

/-- `dropWhile` skips exactly a maximal true-prefix: if everything in
`pre` satisfies `p` and `q` does not, dropping from `pre ++ q :: rest`
leaves `q :: rest`. -/
theorem dropWhile_prefix_eq {α : Type} (p : α → Bool) (pre : List α) (q : α)
    (rest : List α) (hpre : ∀ x ∈ pre, p x = true) (hq : p q = false) :
    (pre ++ q :: rest).dropWhile p = q :: rest := by
  induction pre with
  | nil => simp [List.dropWhile, hq]
  | cons a as ih =>
    have ha : p a = true := hpre a (by simp)
    simpa [List.dropWhile, ha] using ih (fun x hx => hpre x (by simp [hx]))

end Lemmas

/-- Claim C8: for the hash-map-backed cache (`DefaultCache`),
`complete(key, value, index)` always succeeds, overwrites any existing
entry for that key (later write wins), and returns the value passed in; a
subsequent `lookup(key)` invokes its `on_hit` callback with exactly the
most recently completed `(value, index)` pair; and `lookup` of a
never-completed key returns the miss result `Err(())`. -/
theorem default_cache_complete_lookup (c : DefaultCache) (k v i v2 i2 : Nat) :
    (DefaultCache.complete c k v i).1 = v ∧
    (∀ (R : Type) (onHit : Nat → Nat → R),
      DefaultCache.lookup (DefaultCache.complete c k v i).2 k onHit = .ok (onHit v i)) ∧
    (∀ (R : Type) (onHit : Nat → Nat → R),
      DefaultCache.lookup
        (DefaultCache.complete (DefaultCache.complete c k v i).2 k v2 i2).2 k onHit
        = .ok (onHit v2 i2)) ∧
    (c.lookupEntry k = none → ∀ (R : Type) (onHit : Nat → Nat → R),
      DefaultCache.lookup c k onHit = .error ()) := by
  refine ⟨rfl, ?_, ?_, ?_⟩
  · intro R onHit
    simp [DefaultCache.lookup, DefaultCache.complete, DefaultCache.lookupEntry]
  · intro R onHit
    simp [DefaultCache.lookup, DefaultCache.complete, DefaultCache.lookupEntry]
  · intro hmiss R onHit
    simp [DefaultCache.lookup, hmiss]

/-- Witness for C8 at a concrete cache: completing key 0 twice and
looking it up hits the later value; an empty cache misses. -/
theorem default_cache_complete_lookup_witness :
    (DefaultCache.complete [] 0 7 1).1 = 7 ∧
    DefaultCache.lookup (DefaultCache.complete [] 0 7 1).2 0 (fun a b => (a, b))
      = .ok (7, 1) ∧
    DefaultCache.lookup
        (DefaultCache.complete (DefaultCache.complete [] 0 7 1).2 0 8 2).2 0
        (fun a b => (a, b)) = .ok (8, 2) ∧
    DefaultCache.lookup ([] : DefaultCache) 0 (fun a b => (a, b)) = .error () := by
  obtain ⟨h1, h2, h3, h4⟩ := default_cache_complete_lookup [] 0 7 1 8 2
  exact ⟨h1, h2 _ _, h3 _ _, h4 rfl _ _⟩

/-- Claim C5: `handle_cycle_error` dispatches exactly by the
per-query-kind policy — under `Error` it emits the diagnostic and returns
the `Value::from_cycle_error` placeholder; under `Fatal` it emits the
diagnostic and aborts the compilation, never returning a value; under
`DelayBug` it records the diagnostic as a delayed bug and returns the
placeholder. -/
theorem handle_cycle_error_dispatch (env : QueryEnv) (ce : CycleError) (t : Trace) :
    (env.query.handleCycleError = .Error →
      handleCycleError env ce t
        = (.ok (env.fromCycleError ce.cycle), t.emit (.cycleDiag ce.cycle))) ∧
    (env.query.handleCycleError = .Fatal →
      handleCycleError env ce t
        = (.error .fatalAborted, t.emit (.cycleDiag ce.cycle))) ∧
    (env.query.handleCycleError = .DelayBug →
      handleCycleError env ce t
        = (.ok (env.fromCycleError ce.cycle), t.emit (.cycleDelayed ce.cycle))) := by
  refine ⟨fun h => ?_, fun h => ?_, fun h => ?_⟩ <;>
    simp [handleCycleError, h, Trace.hasErrors, Trace.emit, Diag.isError]

/-- Witness for C5 at concrete inputs, one per policy. -/
theorem handle_cycle_error_dispatch_witness :
    (handleCycleError sampleEnv ⟨none, []⟩ Trace.empty
      = (.ok 99, Trace.empty.emit (.cycleDiag [])) ∧
    handleCycleError
        { sampleEnv with query := { sampleEnv.query with handleCycleError := .Fatal } }
        ⟨none, []⟩ Trace.empty
      = (.error .fatalAborted, Trace.empty.emit (.cycleDiag [])) ∧
    handleCycleError
        { sampleEnv with query := { sampleEnv.query with handleCycleError := .DelayBug } }
        ⟨none, []⟩ Trace.empty
      = (.ok 99, Trace.empty.emit (.cycleDelayed []))) := by
  refine ⟨(handle_cycle_error_dispatch sampleEnv ⟨none, []⟩ Trace.empty).1 rfl,
    (handle_cycle_error_dispatch _ ⟨none, []⟩ Trace.empty).2.1 rfl,
    (handle_cycle_error_dispatch _ ⟨none, []⟩ Trace.empty).2.2 rfl⟩

/-- Claim C3: in single-threaded mode, a request for a key whose state
entry is `Started` neither re-runs the computation nor blocks:
`try_start` returns a cycle error built by `find_cycle_in_stack` over the
stack of currently active queries, leaves the state unchanged, and the
error payload contains exactly the active queries from the frame
executing the awaited job to the innermost frame. -/
theorem try_start_started_is_cycle (stack : List QueryInfo) (nextJobId : Nat)
    (currentJob : Option Nat) (state : QueryState) (key span : Nat) (job : QueryJob)
    (h : state.lookup key = some (.Started job)) :
    tryStart stack nextJobId currentJob state key span
      = (.cycle (findCycleInStack stack job.id), state) ∧
    ∀ pre rest q, stack = pre ++ q :: rest → q.jobId = job.id →
      (∀ x ∈ pre, x.jobId ≠ job.id) →
      (findCycleInStack stack job.id).cycle = q :: rest := by
  constructor
  · simp [tryStart, h]
  · intro pre rest q hstack hq hpre
    subst hstack
    simp only [findCycleInStack]
    exact dropWhile_prefix_eq _ pre q rest
      (fun x hx => by simpa using hpre x hx) (by simp [hq])

/-- Witness for C3: requesting key 5, already started by job 1, from a
stack whose frames are jobs 0, 1, 2 yields a cycle made of the frames of
jobs 1 and 2. -/
theorem try_start_started_is_cycle_witness :
    tryStart [⟨0, 100⟩, ⟨1, 101⟩, ⟨2, 102⟩] 9 none
        [(5, .Started ⟨1, 0, none⟩)] 5 0
      = (.cycle (findCycleInStack [⟨0, 100⟩, ⟨1, 101⟩, ⟨2, 102⟩] 1),
         [(5, .Started ⟨1, 0, none⟩)]) ∧
    (findCycleInStack [⟨0, 100⟩, ⟨1, 101⟩, ⟨2, 102⟩] 1).cycle
      = [⟨1, 101⟩, ⟨2, 102⟩] := by
  obtain ⟨h1, h2⟩ := try_start_started_is_cycle [⟨0, 100⟩, ⟨1, 101⟩, ⟨2, 102⟩] 9 none
    [(5, .Started ⟨1, 0, none⟩)] 5 0 ⟨1, 0, none⟩ (by decide)
  exact ⟨h1, h2 [⟨0, 100⟩] [⟨2, 102⟩] ⟨1, 101⟩ rfl rfl (by decide)⟩

/-- Claim C4, counterexample: dropping the `JobOwner` for key 5 does NOT
remove the state entry — it leaves a `Poisoned` entry behind, and a
subsequent fresh request for key 5 raises a fatal error instead of
starting a fresh computation. -/
theorem job_owner_drop_entry_not_removed :
    ((jobOwnerDrop [(5, .Started ⟨1, 0, none⟩)] 5).2).lookup 5 = some .Poisoned ∧
    (tryStart [] 7 none (jobOwnerDrop [(5, .Started ⟨1, 0, none⟩)] 5).2 5 0).1
      = .fatalRaised := by decide

/-- Claim C4 (amended): after a job is poisoned (the `JobOwner` is
dropped without completing), the `Started` entry is replaced by a
`Poisoned` entry that remains in the state table; a subsequent request
for the same key raises a fatal error rather than starting a fresh
computation; and the job's waiters are signalled on poisoning, so waiters
parked before the poisoning observe the failure rather than hanging. -/
theorem job_owner_drop_poisons (state : QueryState) (key : Nat) (job : QueryJob)
    (h : state.lookup key = some (.Started job)) :
    (jobOwnerDrop state key).1 = some job ∧
    ((jobOwnerDrop state key).2).lookup key = some .Poisoned ∧
    ∀ stack nextJobId currentJob span,
      (tryStart stack nextJobId currentJob (jobOwnerDrop state key).2 key span).1
        = .fatalRaised := by
  refine ⟨by simp [jobOwnerDrop, h], ?_, ?_⟩
  · simp [jobOwnerDrop, h, QueryState.lookup_insert]
  · intro stack nextJobId currentJob span
    simp [tryStart, jobOwnerDrop, h, QueryState.lookup_insert]

/-- Witness for the amended C4 at a concrete state. -/
theorem job_owner_drop_poisons_witness :
    (jobOwnerDrop [(5, .Started ⟨1, 0, none⟩)] 5).1 = some ⟨1, 0, none⟩ ∧
    ((jobOwnerDrop [(5, .Started ⟨1, 0, none⟩)] 5).2).lookup 5 = some .Poisoned ∧
    ∀ stack nextJobId currentJob span,
      (tryStart stack nextJobId currentJob
          (jobOwnerDrop [(5, .Started ⟨1, 0, none⟩)] 5).2 5 span).1
        = .fatalRaised :=
  job_owner_drop_poisons [(5, .Started ⟨1, 0, none⟩)] 5 ⟨1, 0, none⟩ (by decide)

/-- Claim C2: for a result checked by `incremental_verify_ich` on a green
dep-node, a hash differing from the previously recorded fingerprint makes
the process emit a descriptive error naming the dep-node, and panic
carrying the dep-node and the result, rather than return either value;
entered re-entrantly (while a first failure is being formatted), it emits
only the minimal `Reentrant` fallback error and does not panic again. -/
theorem incremental_verify_ich_mismatch (env : QueryEnv) (result : Nat) (t : Trace)
    (hgreen : env.depGraph.isGreen = true)
    (hmis : some (newHashOf env result) ≠ env.depGraph.prevFingerprintOf) :
    (t.insidePanic = false →
      (incrementalVerifyIch env result t).1 = .error (.panicked env.depNode result) ∧
      ((incrementalVerifyIch env result t).2).diags
        = t.diags ++ [.incrementCompilation env.depNode]) ∧
    (t.insidePanic = true →
      (incrementalVerifyIch env result t).1 = .ok (newHashOf env result) ∧
      ((incrementalVerifyIch env result t).2).diags = t.diags ++ [.reentrant]) := by
  unfold incrementalVerifyIch incrementalVerifyIchFailed
  constructor <;> intro hip <;>
    simp [hgreen, hmis, hip, Trace.recVerify, Trace.emit]

/-- Witness for C2: a first failure panics after emitting the
`IncrementCompilation` error; a re-entrant failure emits only the
`Reentrant` fallback. -/
theorem incremental_verify_ich_mismatch_witness :
    ((incrementalVerifyIch mismatchEnv 5 Trace.empty).1
        = .error (.panicked mismatchEnv.depNode 5) ∧
      ((incrementalVerifyIch mismatchEnv 5 Trace.empty).2).diags
        = Trace.empty.diags ++ [.incrementCompilation mismatchEnv.depNode]) ∧
    ((incrementalVerifyIch mismatchEnv 5 { insidePanic := true }).1
        = .ok (newHashOf mismatchEnv 5) ∧
      ((incrementalVerifyIch mismatchEnv 5 { insidePanic := true }).2).diags
        = Trace.empty.diags ++ [.reentrant]) :=
  ⟨(incremental_verify_ich_mismatch mismatchEnv 5 Trace.empty rfl (by decide)).1 rfl,
   (incremental_verify_ich_mismatch mismatchEnv 5 { insidePanic := true } rfl
      (by decide)).2 rfl⟩

/-- On a green mark and a successful disk load, the incremental-reuse leg
of `try_load_from_disk_and_cache_in_memory` never invokes the provider,
and whenever it returns normally it returns the loaded value with the
green dep-node index. -/
theorem tryLoad_green_hit (env : QueryEnv) (key p i v : Nat) (f : Nat → Option Nat)
    (t : Trace)
    (hgreen : env.depGraph.tryMarkGreen = some (p, i))
    (hload : env.query.tryLoadFromDisk = some f)
    (hv : f p = some v) :
    ((tryLoadFromDiskAndCacheInMemory env key t).2).computeCalls = t.computeCalls ∧
    ∀ x, (tryLoadFromDiskAndCacheInMemory env key t).1 = .ok x → x = some (v, i) := by
  unfold tryLoadFromDiskAndCacheInMemory
  simp only [hgreen, hload, hv]
  by_cases hc : ((((env.depGraph.prevFingerprintOf).getD Fingerprint.ZERO).w1 % 32 == 0)
      || env.sess.incrementalVerifyIch) = true
  · rcases hres : incrementalVerifyIch env v t with ⟨res, t'⟩
    have hcc := incrementalVerifyIch_computeCalls env v t
    rw [hres] at hcc
    simp only [] at hcc
    cases res <;> simp [hc, hres, hcc]
  · simp [hc]

/-- Claim C1: for a query kind that is neither `eval_always` nor
anonymous, with incremental compilation enabled, if the dependency graph
marks the dep-node green and the disk-cache load returns a value, then
`execute_job` never invokes the provider (`query.compute` is not called),
and whenever it returns it returns the disk-loaded value paired with the
green dep-node index. -/
theorem execute_job_green_disk_load (env : QueryEnv) (key p i v : Nat)
    (f : Nat → Option Nat)
    (hfull : env.depGraph.fullyEnabled = true)
    (hanon : env.query.anon = false)
    (heval : env.query.evalAlways = false)
    (hgreen : env.depGraph.tryMarkGreen = some (p, i))
    (hload : env.query.tryLoadFromDisk = some f)
    (hv : f p = some v) :
    ((executeJob env key Trace.empty).2).computeCalls = [] ∧
    ∀ r, (executeJob env key Trace.empty).1 = .ok r → r = (v, i) := by
  have h := tryLoad_green_hit env key p i v f Trace.empty hgreen hload hv
  unfold executeJob
  rcases hres : tryLoadFromDiskAndCacheInMemory env key Trace.empty with ⟨res, t'⟩
  rw [hres] at h
  obtain ⟨hcc, hval⟩ := h
  simp only [] at hcc hval
  have hempty : Trace.empty.computeCalls = [] := rfl
  cases res with
  | error e => simp [hfull, hanon, heval, hres, hcc, hempty]
  | ok o =>
    cases o with
    | none => exact absurd (hval none rfl).symm (by simp)
    | some ret =>
      have hr := hval (some ret) rfl
      injection hr with hr
      subst hr
      simp [hfull, hanon, heval, hres, hcc, hempty]

/-- Witness for C1: in `sampleEnv` the disk-loaded value 5 is returned
with the green index 4 and the provider is never invoked. -/
theorem execute_job_green_disk_load_witness :
    ((executeJob sampleEnv 3 Trace.empty).2).computeCalls = [] ∧
    ∀ r, (executeJob sampleEnv 3 Trace.empty).1 = .ok r → r = (5, 4) :=
  execute_job_green_disk_load sampleEnv 3 3 4 5 (fun _ => some 5)
    rfl rfl rfl rfl rfl rfl

/-- Claim C7: when the dep-node was marked green but the disk-cache load
yields no value (no disk-load function, or it returns nothing),
`try_load_from_disk_and_cache_in_memory` falls back to running the
provider once under `with_ignore`, verifies the recomputed result's hash
against the previous fingerprint, and whenever it returns normally it
returns the recomputed value with the green dep-node index having
surfaced no diagnostic for the load failure. -/
theorem try_load_green_disk_miss (env : QueryEnv) (key p i : Nat)
    (hgreen : env.depGraph.tryMarkGreen = some (p, i))
    (hmiss : env.query.tryLoadFromDisk = none ∨
      ∃ f, env.query.tryLoadFromDisk = some f ∧ f p = none) :
    ((tryLoadFromDiskAndCacheInMemory env key Trace.empty).2).computeCalls
      = [.ignore] ∧
    ((tryLoadFromDiskAndCacheInMemory env key Trace.empty).2).verifies
      = [env.query.compute key] ∧
    ∀ x, (tryLoadFromDiskAndCacheInMemory env key Trace.empty).1 = .ok x →
      x = some (env.query.compute key, i) ∧
      ((tryLoadFromDiskAndCacheInMemory env key Trace.empty).2).diags = [] := by
  have hred : tryLoadFromDiskAndCacheInMemory env key Trace.empty
      = loadFromDiskFallback env key i Trace.empty := by
    unfold tryLoadFromDiskAndCacheInMemory
    rcases hmiss with hnone | ⟨f, hf, hfp⟩
    · simp [hgreen, hnone]
    · simp [hgreen, hf, hfp]
  rw [hred]
  unfold loadFromDiskFallback
  have ht1c : (Trace.empty.recCompute .ignore).computeCalls = [.ignore] := rfl
  have ht1v : (Trace.empty.recCompute .ignore).verifies = [] := rfl
  have ht1d : (Trace.empty.recCompute .ignore).diags = [] := rfl
  have ht1p : (Trace.empty.recCompute .ignore).insidePanic = false := rfl
  rcases hres : incrementalVerifyIch env (env.query.compute key)
      (Trace.empty.recCompute .ignore) with ⟨res, t'⟩
  have hcc := incrementalVerifyIch_computeCalls env (env.query.compute key)
    (Trace.empty.recCompute .ignore)
  have hvv := incrementalVerifyIch_verifies env (env.query.compute key)
    (Trace.empty.recCompute .ignore)
  have hdd := incrementalVerifyIch_ok_diags env (env.query.compute key)
    (Trace.empty.recCompute .ignore) ht1p
  rw [hres] at hcc hvv hdd
  simp only [] at hcc hvv hdd
  cases res with
  | error e => simp [hcc, hvv, ht1c, ht1v]
  | ok fp =>
    refine ⟨by simp [hcc, ht1c], by simp [hvv, ht1v], ?_⟩
    intro x hx
    simp only [] at hx
    injection hx with hx
    subst hx
    refine ⟨rfl, ?_⟩
    simp only []
    rw [hdd fp rfl, ht1d]

/-- Witness for C7: with the disk load yielding nothing, the provider
runs once under `with_ignore` and its result is verified. -/
theorem try_load_green_disk_miss_witness :
    ((tryLoadFromDiskAndCacheInMemory diskMissEnv 3 Trace.empty).2).computeCalls
      = [.ignore] ∧
    ((tryLoadFromDiskAndCacheInMemory diskMissEnv 3 Trace.empty).2).verifies
      = [diskMissEnv.query.compute 3] := by
  obtain ⟨h1, h2, _⟩ := try_load_green_disk_miss diskMissEnv 3 3 4 rfl
    (Or.inr ⟨fun _ => none, rfl, rfl⟩)
  exact ⟨h1, h2⟩

/-- Claim C9: for a value successfully loaded from the disk cache, the
hash re-verification runs precisely when the previously recorded
fingerprint's second 64-bit word is divisible by 32 or the
`-Zincremental-verify-ich` session option is enabled — a deterministic
function of the stored fingerprint, not a fresh random draw. -/
theorem try_load_verify_subset (env : QueryEnv) (key p i v : Nat)
    (f : Nat → Option Nat) (fp : Fingerprint)
    (hgreen : env.depGraph.tryMarkGreen = some (p, i))
    (hload : env.query.tryLoadFromDisk = some f)
    (hv : f p = some v)
    (hfp : env.depGraph.prevFingerprintOf = some fp) :
    ((tryLoadFromDiskAndCacheInMemory env key Trace.empty).2).verifies ≠ [] ↔
      (fp.w1 % 32 = 0 ∨ env.sess.incrementalVerifyIch = true) := by
  unfold tryLoadFromDiskAndCacheInMemory
  simp only [hgreen, hload, hv, hfp, Option.getD_some]
  by_cases hc : ((fp.w1 % 32 == 0) || env.sess.incrementalVerifyIch) = true
  · rcases hres : incrementalVerifyIch env v Trace.empty with ⟨res, t'⟩
    have hvv := incrementalVerifyIch_verifies env v Trace.empty
    rw [hres] at hvv
    simp only [] at hvv
    have hrhs : fp.w1 % 32 = 0 ∨ env.sess.incrementalVerifyIch = true := by
      simpa [Bool.or_eq_true, beq_iff_eq] using hc
    cases res <;> simp [hc, hres, hvv, hrhs]
  · have hrhs : ¬(fp.w1 % 32 = 0 ∨ env.sess.incrementalVerifyIch = true) := by
      simpa [Bool.or_eq_true, beq_iff_eq] using hc
    simp [hc, hrhs, Trace.empty]

/-- Witness for C9, both directions: a fingerprint with second word 32
triggers the re-verification, one with second word 1 (and the option off)
does not. -/
theorem try_load_verify_subset_witness :
    (((tryLoadFromDiskAndCacheInMemory
        { sampleEnv with
          depGraph := { sampleEnv.depGraph with prevFingerprintOf := some ⟨5, 32⟩ } }
        3 Trace.empty).2).verifies ≠ [] ↔ ((32 : Nat) % 32 = 0 ∨
          ({ sampleEnv with
             depGraph := { sampleEnv.depGraph with
                           prevFingerprintOf := some ⟨5, 32⟩ } } :
            QueryEnv).sess.incrementalVerifyIch = true)) ∧
    (((tryLoadFromDiskAndCacheInMemory mismatchEnv 3 Trace.empty).2).verifies ≠ []
      ↔ ((1 : Nat) % 32 = 0 ∨ mismatchEnv.sess.incrementalVerifyIch = true)) :=
  ⟨try_load_verify_subset _ 3 3 4 5 (fun _ => some 5) ⟨5, 32⟩ rfl rfl rfl rfl,
   try_load_verify_subset mismatchEnv 3 3 4 5 (fun _ => some 5) ⟨0, 1⟩
     rfl rfl rfl rfl⟩

/-- Claim C6: feeding a key that already has a cached value checks the
hashes when the query has a hash function — a mismatch is recorded as a
non-fatal delayed bug and the old value is kept, equal hashes succeed
silently — while a `no_hash` query makes the second feed a fatal internal
error regardless of value equality; feeding a key with no cached value
creates a dependency node via `with_feed_task` and completes the cache
with the fed value. -/
theorem feed_query_behavior (env : QueryEnv) (cache : DefaultCache) (key value : Nat)
    (t : Trace) :
    (∀ old i hasher, cache.lookupEntry key = some (old, i) →
      env.query.hashResult = some hasher → hasher old ≠ hasher value →
      feedQuery env cache key value t
        = (.ok (), t.emit (.feedMismatch key old value), cache) ∧
      Diag.isError (.feedMismatch key old value) = false) ∧
    (∀ old i hasher, cache.lookupEntry key = some (old, i) →
      env.query.hashResult = some hasher → hasher old = hasher value →
      feedQuery env cache key value t = (.ok (), t, cache)) ∧
    (∀ old i, cache.lookupEntry key = some (old, i) →
      env.query.hashResult = none →
      feedQuery env cache key value t
        = (.error (.bugFeedTwice key old value), t, cache)) ∧
    (cache.lookupEntry key = none →
      (feedQuery env cache key value t).1 = .ok () ∧
      ((feedQuery env cache key value t).2.1).feedTasks
        = t.feedTasks ++ [(key, value)] ∧
      ((feedQuery env cache key value t).2.2).lookupEntry key
        = some (value, env.feedTaskIndex)) := by
  refine ⟨?_, ?_, ?_, ?_⟩
  · intro old i hasher hold hhash hne
    simp only [feedQuery, hold, hhash]
    rw [if_pos hne]
    exact ⟨rfl, rfl⟩
  · intro old i hasher hold hhash heq
    simp only [feedQuery, hold, hhash]
    rw [if_neg (not_not_intro heq)]
  · intro old i hold hnone
    simp only [feedQuery, hold, hnone]
  · intro hmiss
    refine ⟨?_, ?_, ?_⟩ <;>
      simp [feedQuery, hmiss, DefaultCache.complete, DefaultCache.lookupEntry]

/-- Witness for C6: the four feed scenarios at concrete inputs — hash
mismatch on a cached key, hash-equal refeed, `no_hash` refeed, and a
first feed of an uncached key. -/
theorem feed_query_behavior_witness :
    (feedQuery sampleEnv [(0, (1, 9))] 0 2 Trace.empty
        = (.ok (), Trace.empty.emit (.feedMismatch 0 1 2), [(0, (1, 9))]) ∧
      Diag.isError (.feedMismatch 0 1 2) = false) ∧
    feedQuery sampleEnv [(0, (1, 9))] 0 1 Trace.empty
      = (.ok (), Trace.empty, [(0, (1, 9))]) ∧
    feedQuery noHashEnv [(0, (1, 9))] 0 1 Trace.empty
      = (.error (.bugFeedTwice 0 1 1), Trace.empty, [(0, (1, 9))]) ∧
    ((feedQuery sampleEnv [] 0 2 Trace.empty).1 = .ok () ∧
      ((feedQuery sampleEnv [] 0 2 Trace.empty).2.1).feedTasks
        = Trace.empty.feedTasks ++ [(0, 2)] ∧
      ((feedQuery sampleEnv [] 0 2 Trace.empty).2.2).lookupEntry 0
        = some (2, sampleEnv.feedTaskIndex)) := by
  refine ⟨?_, ?_, ?_, ?_⟩
  · exact (feed_query_behavior sampleEnv [(0, (1, 9))] 0 2 Trace.empty).1 1 9
      (fun v => ⟨v, 0⟩) rfl rfl (by decide)
  · exact (feed_query_behavior sampleEnv [(0, (1, 9))] 0 1 Trace.empty).2.1 1 9
      (fun v => ⟨v, 0⟩) rfl rfl rfl
  · exact (feed_query_behavior noHashEnv [(0, (1, 9))] 0 1 Trace.empty).2.2.1 1 9
      rfl rfl
  · exact (feed_query_behavior sampleEnv [] 0 2 Trace.empty).2.2.2 rfl

/-- Claim C10: a query ending in a cycle error handled with a placeholder
(any policy other than `Fatal`) returns the `store_nocache`d placeholder
with no dep-node index, leaves the query cache untouched (so no
placeholder is ever cached), invokes no provider, and a later request for
the same key against a vacant state entry re-attempts the computation. -/
theorem cycle_placeholder_not_cached (env : QueryEnv) (stack : List QueryInfo)
    (nextJobId : Nat) (currentJob : Option Nat) (state : QueryState)
    (cache : DefaultCache) (span key : Nat) (t : Trace) (job : QueryJob)
    (h : state.lookup key = some (.Started job))
    (hpol : env.query.handleCycleError ≠ .Fatal) :
    (tryExecuteQuery env stack nextJobId currentJob state cache span key t).1
      = .ok (DefaultCache.store_nocache
          (env.fromCycleError (findCycleInStack stack job.id).cycle), none) ∧
    (tryExecuteQuery env stack nextJobId currentJob state cache span key t).2.2.2
      = cache ∧
    (tryExecuteQuery env stack nextJobId currentJob state cache span key t).2.2.1
      = state ∧
    ((tryExecuteQuery env stack nextJobId currentJob state cache span key t).2.1
      ).computeCalls = t.computeCalls ∧
    ∀ state2 : QueryState, state2.lookup key = none →
      (tryStart stack nextJobId currentJob state2 key span).1
        = .notYetStarted nextJobId := by
  have hts : tryStart stack nextJobId currentJob state key span
      = (.cycle (findCycleInStack stack job.id), state) := by
    simp [tryStart, h]
  have heq : ∃ d, tryExecuteQuery env stack nextJobId currentJob state cache span key t
      = (.ok (env.fromCycleError (findCycleInStack stack job.id).cycle, none),
         t.emit d, state, cache) := by
    unfold tryExecuteQuery
    rw [hts]
    unfold mkCycle handleCycleError
    cases hpc : env.query.handleCycleError with
    | Error =>
      refine ⟨.cycleDiag (findCycleInStack stack job.id).cycle, ?_⟩
      simp [DefaultCache.store_nocache]
    | Fatal => exact absurd hpc hpol
    | DelayBug =>
      refine ⟨.cycleDelayed (findCycleInStack stack job.id).cycle, ?_⟩
      simp [DefaultCache.store_nocache]
  obtain ⟨d, hrun⟩ := heq
  rw [hrun]
  refine ⟨rfl, rfl, rfl, by simp [Trace.emit], ?_⟩
  intro state2 h2
  simp [tryStart, h2]

/-- Witness for C10: a cycle on key 5 under the `Error` policy yields the
placeholder 99 with no index, leaves the empty cache empty, and a vacant
state entry lets a later request start afresh. -/
theorem cycle_placeholder_not_cached_witness :
    (tryExecuteQuery sampleEnv [⟨1, 101⟩] 9 none
        [(5, .Started ⟨1, 0, none⟩)] [] 0 5 Trace.empty).1
      = .ok (DefaultCache.store_nocache
          (sampleEnv.fromCycleError (findCycleInStack [⟨1, 101⟩] 1).cycle), none) ∧
    (tryExecuteQuery sampleEnv [⟨1, 101⟩] 9 none
        [(5, .Started ⟨1, 0, none⟩)] [] 0 5 Trace.empty).2.2.2 = [] ∧
    (tryExecuteQuery sampleEnv [⟨1, 101⟩] 9 none
        [(5, .Started ⟨1, 0, none⟩)] [] 0 5 Trace.empty).2.2.1
      = [(5, .Started ⟨1, 0, none⟩)] ∧
    ((tryExecuteQuery sampleEnv [⟨1, 101⟩] 9 none
        [(5, .Started ⟨1, 0, none⟩)] [] 0 5 Trace.empty).2.1).computeCalls
      = Trace.empty.computeCalls ∧
    ∀ state2 : QueryState, state2.lookup 5 = none →
      (tryStart [⟨1, 101⟩] 9 none state2 5 0).1 = .notYetStarted 9 :=
  cycle_placeholder_not_cached sampleEnv [⟨1, 101⟩] 9 none
    [(5, .Started ⟨1, 0, none⟩)] [] 0 5 Trace.empty ⟨1, 0, none⟩
    (by decide) (by decide)

end QuerySystem
